import Mathlib

/-!
Verification of the JWST screenshot-analysis tool (`src/jwst.py`).

This file gives a shallow embedding of the program's data model and
operations and proves (or refutes) the frozen behavioural claims about it.

Conventions of the embedding:
* Python `str` values are Lean `String`s (sequences of Unicode code points,
  matching Python's character-indexed slicing).
* Python byte strings are `List Nat`, each entry intended to lie below 256.
* Parsed JSON values (what `json.loads` yields and `json.dumps` consumes)
  are the mutual inductive `JVal`/`JArr`/`JObj` below; Python dicts keep
  insertion order, hence association lists.
* The filesystem and the OpenAI backend are external collaborators; they
  enter as an explicit environment (`Env`): a map from path to file-read
  result, and a map from the transport-encoded request body to a response.
* Python exceptions are `Except String`; a function that can raise an
  exception past its own boundary returns `Except String α`, and a caller's
  `try`/`except` is an explicit `match`.
-/

/-- Python's `sep.join(xs)` on a list of strings (`str.join`). -/
def joinSep (sep : String) : List String → String
  | [] => ""
  | [x] => x
  | x :: y :: rest => x ++ sep ++ joinSep sep (y :: rest)

/-- Python's `os.path.basename` for POSIX paths: the part after the last
slash. -/
def pyBasename (s : String) : String :=
  (s.splitOn "/").getLastD s

/-- The technologies cell of the tabular renderer, `jwst.py` lines 189-191:
`tech_str = ", ".join(result.get("technologies", []))[:30]` followed by
`if len(tech_str) == 30: tech_str += "..."`. -/
def tech_str (techs : List String) : String :=
  let s : String := ⟨(joinSep ", " techs).data.take 30⟩
  if s.length == 30 then s ++ "..." else s

mutual
/-- A parsed JSON value: what Python's `json.loads` yields and what flows
through the result dictionaries of `jwst.py`.  Numbers are rationals (see
`dumpNum` for the limits of that choice).  Dicts keep insertion order, so
objects are sequences of key-value pairs. -/
inductive JVal where
  | jnull
  | jbool (b : Bool)
  | jnum (q : ℚ)
  | jstr (s : String)
  | jarr (elems : JArr)
  | jobj (fields : JObj)

/-- A JSON array (Python list of JSON values). -/
inductive JArr where
  | nil
  | cons (v : JVal) (tl : JArr)

/-- A JSON object (Python dict in insertion order). -/
inductive JObj where
  | nil
  | cons (k : String) (v : JVal) (tl : JObj)
end

/-- Dictionary lookup (`d[k]` / the lookup inside `d.get`); Python dicts
have unique keys, so first match is the match. -/
def JObj.lookup : JObj → String → Option JVal
  | .nil, _ => none
  | .cons k v tl, key => if key == k then some v else JObj.lookup tl key

/-- Python's `key in d` for a dict. -/
def JObj.hasKey : JObj → String → Bool
  | .nil, _ => false
  | .cons k _ tl, key => key == k || JObj.hasKey tl key

/-- The keys of a dict, in insertion order. -/
def JObj.keys : JObj → List String
  | .nil => []
  | .cons k _ tl => k :: JObj.keys tl

/-- Build an object from an association list (insertion order kept). -/
def JObj.ofList : List (String × JVal) → JObj
  | [] => .nil
  | (k, v) :: rest => .cons k v (JObj.ofList rest)

/-- Python truthiness `bool(x)` of a parsed-JSON value. -/
def truthy : JVal → Bool
  | .jnull => false
  | .jbool b => b
  | .jnum q => q != 0
  | .jstr s => s != ""
  | .jarr .nil => false
  | .jarr (.cons _ _) => true
  | .jobj .nil => false
  | .jobj (.cons _ _ _) => true

/-- Python's `v.get(key, dflt)`: a dict lookup with a default; on any
non-dict value the attribute access raises (`none` = the call raises). -/
def dictGet (v : JVal) (key : String) (dflt : JVal) : Option JVal :=
  match v with
  | .jobj fs => some ((fs.lookup key).getD dflt)
  | _ => none

/-- Whether a JSON array contains the given string (Python `s in list`,
which compares elementwise; only equal strings match a string). -/
def JArr.containsStr : JArr → String → Bool
  | .nil, _ => false
  | .cons (.jstr s) tl, key => key == s || JArr.containsStr tl key
  | .cons _ tl, key => JArr.containsStr tl key

/-- Whether `needle` occurs contiguously inside the second list. -/
def hasSubstr (needle : List Char) : List Char → Bool
  | [] => needle.isEmpty
  | c :: tl => List.isPrefixOf needle (c :: tl) || hasSubstr needle tl

/-- Python's `key in v` on a parsed-JSON value: key membership for dicts,
substring test for strings, element membership for lists; a `TypeError`
(`none`) for the non-iterable scalars. -/
def pyContains (key : String) : JVal → Option Bool
  | .jobj fs => some (fs.hasKey key)
  | .jarr a => some (a.containsStr key)
  | .jstr s => some (hasSubstr key.data s.data)
  | _ => none

/-- Round a rational to the nearest integer, halves to even: the rounding
Python's fixed-point formatting applies to the decimal value of its
argument.  (The binary floating-point representation underneath a Python
float is not modelled; the confidences these claims touch are exact.) -/
def roundHalfEven (x : ℚ) : ℤ :=
  let f : ℤ := ⌊x⌋
  if x - f < 1/2 then f
  else if (1 : ℚ)/2 < x - f then f + 1
  else if f % 2 = 0 then f else f + 1

/-- Python's fixed-point formatting `f"{v:.2f}"` on a number. -/
def format2f (q : ℚ) : String :=
  let n := roundHalfEven (q * 100)
  let sign := if n < 0 then "-" else ""
  let m := n.natAbs
  sign ++ toString (m / 100) ++ "." ++
    (if m % 100 < 10 then "0" else "") ++ toString (m % 100)

/-- `f"{v:.2f}"` on a parsed-JSON value: numbers and booleans format
(Python bools are ints), everything else raises a format error (`none`). -/
def fmtNum2 : JVal → Option String
  | .jnum q => some (format2f q)
  | .jbool b => some (format2f (if b then 1 else 0))
  | _ => none

/-- Two-space indentation prefix used by `json.dumps(..., indent=2)`. -/
def indentStr (lvl : Nat) : String := String.mk (List.replicate (2 * lvl) ' ')

/-- Lower-case hexadecimal digit. -/
def hexDigit (n : Nat) : Char := "0123456789abcdef".data.getD n '0'

/-- Four-digit hexadecimal rendering (for `\uXXXX` escapes). -/
def hex4 (n : Nat) : String :=
  String.mk [hexDigit (n / 4096 % 16), hexDigit (n / 256 % 16),
             hexDigit (n / 16 % 16), hexDigit (n % 16)]

/-- JSON escaping of one character as `json.dumps` does with its default
`ensure_ascii=True`: short escapes for the common controls, `\uXXXX` for
other controls and all non-ASCII characters (surrogate pairs beyond the
basic plane). -/
def escapeChar (c : Char) : String :=
  if c = '"' then "\\\""
  else if c = '\\' then "\\\\"
  else if c = '\n' then "\\n"
  else if c = '\t' then "\\t"
  else if c = '\r' then "\\r"
  else if c.toNat = 8 then "\\b"
  else if c.toNat = 12 then "\\f"
  else if c.toNat < 32 then "\\u" ++ hex4 c.toNat
  else if c.toNat < 127 then String.mk [c]
  else if c.toNat ≤ 65535 then "\\u" ++ hex4 c.toNat
  else
    let m := c.toNat - 65536
    "\\u" ++ hex4 (55296 + m / 1024) ++ "\\u" ++ hex4 (56320 + m % 1024)

/-- JSON string literal rendering (quotes plus escaped characters). -/
def dumpStr (s : String) : String :=
  "\"" ++ String.join (s.data.map escapeChar) ++ "\""

/-- Decimal digits of the fractional part of a rational, with fuel
(17 places, past the precision a double carries; exact decimals such as
the integral confidences in these claims terminate early and exactly). -/
def fracDigits : Nat → ℚ → List Char
  | 0, _ => []
  | fuel + 1, x =>
    if x = 0 then []
    else
      let d : ℤ := ⌊x * 10⌋
      Char.ofNat (48 + d.natAbs) :: fracDigits fuel (x * 10 - d)

/-- JSON number rendering: integers as integers, other rationals in
decimal.  (Python prints floats via their shortest round-trip repr; that
binary-float detail is not modelled, see `roundHalfEven`.) -/
def dumpNum (q : ℚ) : String :=
  if q.den = 1 then toString q.num
  else
    let sign := if q < 0 then "-" else ""
    let a := |q|
    sign ++ toString (⌊a⌋.natAbs) ++ "." ++ String.mk (fracDigits 17 (a - ⌊a⌋))

mutual
/-- `json.dumps(v, indent=2)` restricted to parsed-JSON values, at a given
indentation level. -/
def dumpVal (lvl : Nat) : JVal → String
  | .jnull => "null"
  | .jbool true => "true"
  | .jbool false => "false"
  | .jnum q => dumpNum q
  | .jstr s => dumpStr s
  | .jarr .nil => "[]"
  | .jarr a => "[\n" ++ joinSep ",\n" (dumpArrItems lvl a) ++ "\n" ++ indentStr lvl ++ "]"
  | .jobj .nil => "\x7b\x7d"
  | .jobj fs => "\x7b\n" ++ joinSep ",\n" (dumpObjItems lvl fs) ++ "\n" ++ indentStr lvl ++ "\x7d"

/-- The rendered items of a JSON array, one string per element. -/
def dumpArrItems : Nat → JArr → List String
  | _, .nil => []
  | lvl, .cons v tl => (indentStr (lvl + 1) ++ dumpVal (lvl + 1) v) :: dumpArrItems lvl tl

/-- The rendered items of a JSON object, one string per key-value pair. -/
def dumpObjItems : Nat → JObj → List String
  | _, .nil => []
  | lvl, .cons k v tl =>
      (indentStr (lvl + 1) ++ dumpStr k ++ ": " ++ dumpVal (lvl + 1) v) :: dumpObjItems lvl tl
end

/-- `str(x)` as interpolated into the `ERROR: {...}` table cell.  Strings
render bare; in the program that slot always holds an exception message
(a string), so the remaining cases follow the JSON rendering as a
stand-in for Python's repr. -/
def pyStr : JVal → String
  | .jstr s => s
  | .jbool true => "True"
  | .jbool false => "False"
  | .jnull => "None"
  | v => dumpVal 0 v

/-- The five boolean-feature keys, in the column order of the table. -/
def featureKeys : List String :=
  ["old_looking", "login_page", "webapp", "custom_404", "parked_domain"]

/-- One boolean-feature cell of the table (`jwst.py` lines 195-199):
`f"{'✓' if result.get(k, {}).get('detected', False) else '✗'}
({result.get(k, {}).get('confidence', 0):.2f})"`.
`none` means the rendering raised. -/
def featureCell (result : JVal) (key : String) : Option String := do
  let sub1 ← dictGet result key (.jobj .nil)
  let det ← dictGet sub1 "detected" (.jbool false)
  let sub2 ← dictGet result key (.jobj .nil)
  let conf ← dictGet sub2 "confidence" (.jnum 0)
  let c ← fmtNum2 conf
  some ((if truthy det then "✓" else "✗") ++ " (" ++ c ++ ")")

/-- The strings of a JSON array, when every element is a string;
`none` when `", ".join` would raise on a non-string element. -/
def asStrList : JArr → Option (List String)
  | .nil => some []
  | .cons (.jstr s) tl => (asStrList tl).map (s :: ·)
  | .cons _ _ => none

/-- The technologies cell (lines 189-191):
`", ".join(result.get("technologies", []))[:30]` plus the ellipsis rule.
`str.join` accepts any iterable of strings, so a string value joins its
characters and a dict joins its keys; non-iterables and lists with a
non-string element raise (`none`). -/
def techCell (result : JVal) : Option String := do
  let t ← dictGet result "technologies" (.jarr .nil)
  match t with
  | .jarr a => do
      let strs ← asStrList a
      some (tech_str strs)
  | .jstr s => some (tech_str (s.data.map (fun c => String.mk [c])))
  | .jobj fs => some (tech_str fs.keys)
  | _ => none

/-- One table row (lines 184-201): entries whose payload contains an
`error` key render the message with blank feature cells; other entries get
the five feature cells and the technologies cell.  `none` = the rendering
raised (for example `'error' in result` or `result['error']` on a payload
that is not a dict). -/
def renderRow (filename : String) (result : JVal) : Option (List String) :=
  match pyContains "error" result with
  | none => none
  | some true =>
      match result with
      | .jobj fs =>
          some [filename, "ERROR: " ++ pyStr ((fs.lookup "error").getD .jnull),
                "", "", "", "", ""]
      | _ => none
  | some false => do
      let tech ← techCell result
      let c1 ← featureCell result "old_looking"
      let c2 ← featureCell result "login_page"
      let c3 ← featureCell result "webapp"
      let c4 ← featureCell result "custom_404"
      let c5 ← featureCell result "parked_domain"
      some [filename, c1, c2, c3, c4, c5, tech]

/-- The table's column titles (lines 176-182). -/
def tableHeader : List String :=
  ["Filename", "Old Looking", "Login Page", "Webapp", "Custom 404",
   "Parked", "Technologies"]

/-- A textual stand-in for the printed rich table: title, header and one
line per row.  The exact box drawing is presentation detail; what matters
is that it is a function of exactly these cells in this order. -/
def tableString (rows : List (List String)) : String :=
  joinSep "\n" ("Screenshot Analysis Results" :: joinSep " | " tableHeader ::
    rows.map (joinSep " | "))

/-- The whole table branch over the result mapping (lines 175-203);
`none` when rendering some row raised, aborting `analyze_directory`. -/
def renderTable (results : List (String × JVal)) : Option String :=
  match results.mapM (fun fr => renderRow fr.1 fr.2) with
  | none => none
  | some rows => some (tableString rows)

/-- The machine-readable renderer (line 167):
`json.dumps(results, indent=2)` over the untouched result mapping. -/
def output_json (results : List (String × JVal)) : String :=
  dumpVal 0 (.jobj (JObj.ofList results))

/-- The base64 alphabet of RFC 4648 used by `base64.b64encode`. -/
def base64Alphabet : List Char :=
  "ABCDEFGHIJKLMNOPQRSTUVWXYZabcdefghijklmnopqrstuvwxyz0123456789+/".data

/-- The character for a six-bit group. -/
def sextetChar (n : Nat) : Char := base64Alphabet.getD n 'A'

/-- `base64.b64encode`: three bytes become four characters; a short final
group is padded with `=`. -/
def encodeChunks : List Nat → List Char
  | [] => []
  | [b0] => [sextetChar (b0 / 4), sextetChar (b0 % 4 * 16), '=', '=']
  | [b0, b1] =>
      [sextetChar (b0 / 4), sextetChar (b0 % 4 * 16 + b1 / 16),
       sextetChar (b1 % 16 * 4), '=']
  | b0 :: b1 :: b2 :: rest =>
      sextetChar (b0 / 4) :: sextetChar (b0 % 4 * 16 + b1 / 16) ::
      sextetChar (b1 % 16 * 4 + b2 / 64) :: sextetChar (b2 % 64) ::
      encodeChunks rest

/-- `base64.b64encode(...).decode('utf-8')`: the transport encoding is
pure ASCII, so decoding the bytes as UTF-8 just yields them as text. -/
def b64encodeStr (bs : List Nat) : String := String.mk (encodeChunks bs)

/-- The six-bit value of a base64 character, if any. -/
def charSextet (c : Char) : Option Nat := base64Alphabet.findIdx? (· == c)

/-- Standard base64 decoding (`base64.b64decode`): four characters back to
three bytes, with `=`-padding closing the stream; like `b64decode`, spare
padding bits are dropped rather than rejected. -/
def decodeChunks : List Char → Option (List Nat)
  | [] => some []
  | c0 :: c1 :: c2 :: c3 :: rest =>
      if c2 = '=' then
        if c3 = '=' ∧ rest = [] then
          match charSextet c0, charSextet c1 with
          | some s0, some s1 => some [s0 * 4 + s1 / 16]
          | _, _ => none
        else none
      else if c3 = '=' then
        if rest = [] then
          match charSextet c0, charSextet c1, charSextet c2 with
          | some s0, some s1, some s2 =>
              some [s0 * 4 + s1 / 16, s1 % 16 * 16 + s2 / 4]
          | _, _, _ => none
        else none
      else
        match charSextet c0, charSextet c1, charSextet c2, charSextet c3,
              decodeChunks rest with
        | some s0, some s1, some s2, some s3, some tail =>
            some ((s0 * 4 + s1 / 16) :: (s1 % 16 * 16 + s2 / 4) ::
                  (s2 % 4 * 64 + s3) :: tail)
        | _, _, _, _, _ => none
  | _ => none

/-- Base64 decoding of a string (character stream of the encoded text). -/
def b64decodeStr (s : String) : Option (List Nat) := decodeChunks s.data

/-- The external collaborators of one run.  `fileBytes` is what opening
and reading a path yields — the bytes, or the raised I/O error's message.
`backend` maps the transport-encoded image payload of the request to the
parsed response, or to the message of whatever the request/parse raised
(network failure, non-2xx response, `json.loads` failure). -/
structure Env where
  fileBytes : String → Except String (List Nat)
  backend : String → Except String JVal

/-- `JWST.encode_image` (lines 45-56): read the file and base64-encode it.
A read failure raises out of the function (`.error`). -/
def encode_image (env : Env) (image_path : String) : Except String String :=
  match env.fileBytes image_path with
  | .error e => .error e
  | .ok bs => .ok (b64encodeStr bs)

/-- `JWST.analyze_screenshot` (lines 58-120).  The call to `encode_image`
(line 67) stands *before* the `try` block (line 69), so a read failure
propagates out of this function; everything the `try` block covers — the
request and the parsing of the response — is caught by the bare
`except` (line 115) and converted into the error dictionary. -/
def analyze_screenshot (env : Env) (image_path : String) : Except String JVal :=
  match encode_image env image_path with
  | .error e => .error e
  | .ok base64_image =>
      match env.backend base64_image with
      | .ok result => .ok result
      | .error e =>
          .ok (.jobj (.cons "error" (.jstr e)
            (.cons "filename" (.jstr (pyBasename image_path)) .nil)))

/-- A directory entry found by discovery: the scanned directory plus the
entry's own name. -/
structure ImagePath where
  dir : String
  name : String
deriving DecidableEq, Repr

/-- `str(img_file)` for a discovered entry (POSIX path join). -/
def fullPath (p : ImagePath) : String := p.dir ++ "/" ++ p.name

/-- `os.path.basename(str(img_file))`: entries found directly in the
scanned directory have separator-free names, so the basename is the
entry's name. -/
def basename (p : ImagePath) : String := p.name

/-- `JWST.SUPPORTED_EXTENSIONS` (line 33). -/
def SUPPORTED_EXTENSIONS : List String := [".png", ".jpg", ".jpeg", ".webp"]

/-- Whether a glob pattern `f"*{ext}"` matches an entry name: any name
ending in `ext` (case-sensitive). -/
def endsWith (name ext : String) : Bool := List.isSuffixOf ext.data name.data

/-- The entries of one `Path(directory_path).glob(f"*{ext}")` call over a
directory listing. -/
def globMatches (listing : List String) (ext : String) : List String :=
  listing.filter (fun n => endsWith n ext)

/-- Discovery (lines 136-138): one glob per supported extension, results
concatenated in extension order.  The directory argument is `none` when
the directory does not exist or cannot be read: `pathlib`'s glob yields no
entries in either case (it returns an empty iterator for a non-directory
and swallows the scan's permission error), so both look like an empty
listing — there is no error channel here. -/
def discoverFiles (dirPath : String) (dir : Option (List String)) : List ImagePath :=
  match dir with
  | none => []
  | some listing =>
      (SUPPORTED_EXTENSIONS.foldl (fun acc ext => acc ++ globMatches listing ext) []).map
        (fun n => (⟨dirPath, n⟩ : ImagePath))

/-- What the orchestrator records for one finished task (lines 157-163):
the future's value, or — when `future.result()` re-raises — the one-key
error dictionary built in the `except` arm. -/
def taskResult (env : Env) (p : ImagePath) : JVal :=
  match analyze_screenshot env (fullPath p) with
  | .ok v => v
  | .error e => .jobj (.cons "error" (.jstr e) .nil)

/-- The collection loop over `as_completed` (lines 154-163): one entry per
future, keyed by basename, in completion order.  `order` is the completion
order — any permutation of the discovered files. -/
def runBatch (env : Env) (order : List ImagePath) : List (String × JVal) :=
  order.map (fun p => (basename p, taskResult env p))

/-- The backend requests the batch issues: one per task whose file read
succeeded (the request is only reached after `encode_image`). -/
def backendCalls (env : Env) (order : List ImagePath) : List String :=
  order.filterMap (fun p =>
    match env.fileBytes (fullPath p) with
    | .ok _ => some (fullPath p)
    | .error _ => none)

/-- The two output formats of the CLI. -/
inductive OutFormat where
  | json
  | table
deriving DecidableEq, Repr

/-- The yellow no-files notice (line 141). -/
def emptyNotice (dirPath : String) : String :=
  "No supported image files found in " ++ dirPath

/-- The green found-images notice (line 144). -/
def foundNotice (n : Nat) : String := "Found " ++ toString n ++ " images to analyze"

/-- The green saved-to notice (line 171). -/
def savedNotice (f : String) : String := "Results saved to " ++ f

/-- The green also-saved notice (line 208). -/
def savedAlsoNotice (f : String) : String := "Results also saved to " ++ f

/-- Everything one `analyze_directory` call produces besides its raised
exceptions: the returned mapping, the report printed to the display (the
JSON document on stdout, or the table), the file written (path and
content), the backend requests issued, and the status notices printed.
Per-item red error prints and the progress bar are not tracked. -/
structure RunOutput where
  results : List (String × JVal)
  report : Option String
  written : Option (String × String)
  calls : List String
  notices : List String

/-- `JWST.analyze_directory` (lines 122-210).  `dir` is the state of
`directory_path` on disk (see `discoverFiles`), `order` the completion
order of the futures.  `none` = the call raised (only the table renderer
can raise here).  With no discovered files the function returns the empty
dict at line 142, before any task is submitted and before the output
stage. -/
def analyze_directory (env : Env) (directory_path : String)
    (dir : Option (List String)) (output_format : OutFormat)
    (output_file : Option String) (order : List ImagePath) : Option RunOutput :=
  let image_files := discoverFiles directory_path dir
  if image_files.isEmpty then
    some ⟨[], none, none, [], [emptyNotice directory_path]⟩
  else
    let results := runBatch env order
    let calls := backendCalls env order
    match output_format with
    | .json =>
        match output_file with
        | some f =>
            some ⟨results, none, some (f, output_json results), calls,
                  [foundNotice image_files.length, savedNotice f]⟩
        | none =>
            some ⟨results, some (output_json results), none, calls,
                  [foundNotice image_files.length]⟩
    | .table =>
        match renderTable results with
        | none => none
        | some tbl =>
            match output_file with
            | some f =>
                some ⟨results, some tbl, some (f, output_json results), calls,
                      [foundNotice image_files.length, savedAlsoNotice f]⟩
            | none =>
                some ⟨results, some tbl, none, calls,
                      [foundNotice image_files.length]⟩

/-- The result mapping of a completed run (the empty mapping when the
call raised instead of returning). -/
def resultsOf : Option RunOutput → List (String × JVal)
  | none => []
  | some out => out.results

/-- Override an environment so that reading one particular path raises:
the injected single-task failure of the isolation property. -/
def failAt (env : Env) (path : String) : Env where
  fileBytes := fun p => if p = path then .error "injected" else env.fileBytes p
  backend := env.backend

/-- A sample environment for concrete instantiations: every file reads as
three fixed bytes, the backend always answers the empty findings object. -/
def sampleEnv : Env where
  fileBytes := fun _ => .ok [77, 97, 110]
  backend := fun _ => .ok (.jobj .nil)

/-- An environment whose every file read raises. -/
def ioFailEnv : Env where
  fileBytes := fun _ => .error "read failed"
  backend := fun _ => .ok (.jobj .nil)

/-- An environment whose backend request always raises. -/
def netFailEnv : Env where
  fileBytes := fun _ => .ok [77, 97, 110]
  backend := fun _ => .error "net down"

/-- A payload's feature sub-object under `key` will render without
raising: absent, or an object whose `confidence` (when present) is a
number or a boolean. -/
def featureSafe (fs : JObj) (key : String) : Bool :=
  match fs.lookup key with
  | none => true
  | some (.jobj sub) =>
      match sub.lookup "confidence" with
      | none => true
      | some (.jnum _) => true
      | some (.jbool _) => true
      | some _ => false
  | some _ => false

/-- A payload's `technologies` entry will join without raising: absent,
a list of strings, a string, or a dict. -/
def techSafe (fs : JObj) : Bool :=
  match fs.lookup "technologies" with
  | none => true
  | some (.jarr a) => (asStrList a).isSome
  | some (.jstr _) => true
  | some (.jobj _) => true
  | some _ => false

/-- Every cell of the payload's table row renders without raising. -/
def renderSafe (fs : JObj) : Bool :=
  featureKeys.all (featureSafe fs) && techSafe fs

/-- A snapshot of the worker pool: tasks not yet picked up by a worker,
tasks currently executing, tasks finished.  Tasks are identified by
index. -/
structure PoolState where
  pending : List Nat
  inflight : List Nat
  done : List Nat

/-- The transitions of `concurrent.futures.ThreadPoolExecutor(max_workers=N)`
as used at `jwst.py` line 148: submitted tasks wait in the executor's
queue; each of the at most `N` worker threads runs one task at a time, so
a queued task starts only while fewer than `N` are executing, and a
running task finishes independently of the others. -/
inductive PoolStep (N : Nat) : PoolState → PoolState → Prop where
  | start (pending inflight done : List Nat) (t : Nat)
      (ht : t ∈ pending) (hcap : inflight.length < N) :
      PoolStep N ⟨pending, inflight, done⟩ ⟨pending.erase t, t :: inflight, done⟩
  | finish (pending inflight done : List Nat) (t : Nat) (ht : t ∈ inflight) :
      PoolStep N ⟨pending, inflight, done⟩ ⟨pending, inflight.erase t, t :: done⟩

/-- The pool states reachable from an initial state. -/
inductive PoolReachable (N : Nat) (init : PoolState) : PoolState → Prop where
  | refl : PoolReachable N init init
  | step {s t : PoolState} :
      PoolReachable N init s → PoolStep N s t → PoolReachable N init t

/-- The pool's state when the batch begins: every submitted task queued,
none executing, none finished. -/
def initPool (tasks : List Nat) : PoolState := ⟨tasks, [], []⟩

-- ===== THEOREMS =====

/-- C4 counterexample: a technologies list whose comma-joined string is
exactly 30 characters long (hence "30 characters or shorter") is *not*
rendered unmodified: the code appends the ellipsis marker whenever the
sliced string has length 30, including when nothing was cut off. -/
theorem tech_str_thirty_chars_not_unmodified :
    (joinSep ", " ["abcdefghijklmnopqrstuvwxyz0123"]).length ≤ 30 ∧
      tech_str ["abcdefghijklmnopqrstuvwxyz0123"] ≠
        joinSep ", " ["abcdefghijklmnopqrstuvwxyz0123"] := by
  constructor
  · decide
  · decide

/-- C4 amended: the joined technologies string is truncated to its first 30
characters and suffixed with an ellipsis marker whenever its length is 30
characters *or more*; only strings strictly shorter than 30 characters are
rendered unmodified. -/
theorem tech_str_rendering (techs : List String) :
    tech_str techs =
      if 30 ≤ (joinSep ", " techs).length then
        (⟨(joinSep ", " techs).data.take 30⟩ : String) ++ "..."
      else joinSep ", " techs := by
  unfold tech_str
  have hdata : ∀ t : String, t.length = t.data.length := fun _ => rfl
  by_cases h : 30 ≤ (joinSep ", " techs).length
  · have hlen : (String.mk ((joinSep ", " techs).data.take 30)).length = 30 := by
      rw [hdata, List.length_take]
      rw [hdata] at h
      omega
    simp only [hlen, if_pos h, beq_self_eq_true, if_true]
  · have htake : (joinSep ", " techs).data.take 30 = (joinSep ", " techs).data := by
      apply List.take_of_length_le
      rw [hdata] at h
      omega
    have hmk : (String.mk ((joinSep ", " techs).data.take 30)) = joinSep ", " techs := by
      rw [htake]
    rw [hmk, if_neg h]
    have hne : ((joinSep ", " techs).length == 30) = false := by
      rw [beq_eq_false_iff_ne]
      omega
    simp only [hne, Bool.false_eq_true, if_false]

/-- C2 counterexample: a directory that does not exist (or cannot be
read) produces exactly the same successful empty run as a readable
directory containing zero matching files — same empty mapping, same
notice, no task dispatched and no error of any kind — so the two cases
are not distinguishable and no fatal discovery error exists. -/
theorem discovery_missing_dir_indistinguishable :
    analyze_directory sampleEnv "shots" none .json (some "out.json") [] =
      analyze_directory sampleEnv "shots" (some []) .json (some "out.json") [] ∧
    analyze_directory sampleEnv "shots" none .json (some "out.json") [] =
      some ⟨[], none, none, [], [emptyNotice "shots"]⟩ :=
  ⟨rfl, rfl⟩

/-- C2 amended: discovery has no error channel.  A directory that does
not exist or is not readable is treated exactly like a directory with
zero matching files: `analyze_directory` returns the same successful
empty mapping (and dispatches nothing) in both cases, so the two are not
distinguishable and no `DiscoveryError` is raised. -/
theorem discovery_missing_dir_as_empty (env : Env) (dp : String)
    (fmt : OutFormat) (outFile : Option String) (order : List ImagePath) :
    analyze_directory env dp none fmt outFile order =
      analyze_directory env dp (some []) fmt outFile order := rfl

/-- C10: with zero matching files discovered, `analyze_directory`
returns the empty mapping and short-circuits before the output stage: no
backend request is issued, no report is printed, and no output file is
written even though an output path was supplied. -/
theorem analyze_directory_empty_short_circuit (env : Env) (dp : String)
    (dir : Option (List String)) (fmt : OutFormat) (f : String)
    (order : List ImagePath)
    (h : discoverFiles dp dir = []) :
    analyze_directory env dp dir fmt (some f) order =
      some ⟨[], none, none, [], [emptyNotice dp]⟩ := by
  unfold analyze_directory
  rw [h]
  rfl

/-- C10 witness: a directory holding only a non-image entry. -/
theorem analyze_directory_empty_short_circuit_witness :
    discoverFiles "shots" (some ["notes.txt"]) = [] ∧
    analyze_directory sampleEnv "shots" (some ["notes.txt"]) .table
        (some "out.json") [] =
      some ⟨[], none, none, [], [emptyNotice "shots"]⟩ :=
  ⟨rfl, analyze_directory_empty_short_circuit sampleEnv "shots"
    (some ["notes.txt"]) .table "out.json" [] rfl⟩

/-- C3 counterexample: with a file whose read raises,
`analyze_screenshot` itself raises (the exception propagates out of the
adapter call) instead of returning a Failure outcome: the encode step
stands before the `try` block. -/
theorem analyze_screenshot_io_error_propagates :
    analyze_screenshot ioFailEnv "shots/a.png" = Except.error "read failed" := rfl

/-- C3 amended: an I/O failure while reading the file's bytes is *not*
converted by the adapter — it propagates out of `analyze_screenshot` —
and it is the orchestrator's per-future handler that records it as an
error entry; failures of the request or of response parsing, by
contrast, are converted to an error record by the adapter itself. -/
theorem analyze_screenshot_error_boundaries (env env2 : Env) (p : ImagePath)
    (e e2 : String) (bs : List Nat)
    (h : env.fileBytes (fullPath p) = .error e)
    (h2 : env2.fileBytes (fullPath p) = .ok bs)
    (h3 : env2.backend (b64encodeStr bs) = .error e2) :
    analyze_screenshot env (fullPath p) = Except.error e ∧
    taskResult env p = .jobj (.cons "error" (.jstr e) .nil) ∧
    analyze_screenshot env2 (fullPath p) =
      Except.ok (.jobj (.cons "error" (.jstr e2)
        (.cons "filename" (.jstr (pyBasename (fullPath p))) .nil))) := by
  refine ⟨?_, ?_, ?_⟩
  · simp [analyze_screenshot, encode_image, h]
  · simp [taskResult, analyze_screenshot, encode_image, h]
  · simp [analyze_screenshot, encode_image, h2, h3]

/-- C3 amended, witness: concrete read-failing and request-failing
environments. -/
theorem analyze_screenshot_error_boundaries_witness :
    (ioFailEnv.fileBytes (fullPath ⟨"shots", "a.png"⟩) = .error "read failed" ∧
     netFailEnv.fileBytes (fullPath ⟨"shots", "a.png"⟩) = .ok [77, 97, 110] ∧
     netFailEnv.backend (b64encodeStr [77, 97, 110]) = .error "net down") ∧
    (analyze_screenshot ioFailEnv (fullPath ⟨"shots", "a.png"⟩) =
        Except.error "read failed" ∧
     taskResult ioFailEnv ⟨"shots", "a.png"⟩ =
        .jobj (.cons "error" (.jstr "read failed") .nil) ∧
     analyze_screenshot netFailEnv (fullPath ⟨"shots", "a.png"⟩) =
        Except.ok (.jobj (.cons "error" (.jstr "net down")
          (.cons "filename" (.jstr (pyBasename (fullPath ⟨"shots", "a.png"⟩))) .nil)))) :=
  ⟨⟨rfl, rfl, rfl⟩,
   analyze_screenshot_error_boundaries ioFailEnv netFailEnv
     ⟨"shots", "a.png"⟩ "read failed" "net down" [77, 97, 110] rfl rfl rfl⟩

/-- C8: in every pool state reachable during a batch run with worker
count `N`, at most `N` tasks are executing at once. -/
theorem pool_inflight_bounded (N : Nat) (tasks : List Nat) (s : PoolState)
    (h : PoolReachable N (initPool tasks) s) :
    s.inflight.length ≤ N := by
  induction h with
  | refl => simp [initPool]
  | step hr hs ih =>
      cases hs with
      | start pending inflight done t ht hcap =>
          simp only [List.length_cons]
          omega
      | finish pending inflight done t ht =>
          exact le_trans (List.length_erase_le t inflight) ih

/-- C8 witness: three tasks, two workers, one task started. -/
theorem pool_inflight_bounded_witness :
    PoolReachable 2 (initPool [0, 1, 2])
        ⟨([0, 1, 2] : List Nat).erase 0, [0], []⟩ ∧
    (PoolState.mk (([0, 1, 2] : List Nat).erase 0) [0] []).inflight.length ≤ 2 :=
  have hr : PoolReachable 2 (initPool [0, 1, 2])
      ⟨([0, 1, 2] : List Nat).erase 0, [0], []⟩ :=
    PoolReachable.step PoolReachable.refl
      (PoolStep.start [0, 1, 2] [] [] 0 (by decide) (by decide))
  ⟨hr, pool_inflight_bounded 2 [0, 1, 2] _ hr⟩

/-- In a batch whose basenames are distinct, the entry the collection
loop records for a submitted file is exactly that file's own task result. -/
theorem lookup_runBatch (env : Env) (order : List ImagePath) (f : ImagePath)
    (hnd : (order.map basename).Nodup) (hf : f ∈ order) :
    (runBatch env order).lookup (basename f) = some (taskResult env f) := by
  induction order with
  | nil => cases hf
  | cons hd tl ih =>
      simp only [List.map_cons, List.nodup_cons] at hnd
      rcases List.mem_cons.mp hf with rfl | hmem
      · simp [runBatch, List.lookup]
      · have hne : (basename f == basename hd) = false := by
          rw [beq_eq_false_iff_ne]
          intro heq
          exact hnd.1 (heq ▸ List.mem_map_of_mem basename hmem)
        simp only [runBatch, List.map_cons, List.lookup, hne]
        exact ih hnd.2 hmem

/-- Injecting a read failure for one path leaves every other path's task
result unchanged. -/
theorem taskResult_failAt_ne (env : Env) (path : String) (p : ImagePath)
    (h : fullPath p ≠ path) :
    taskResult (failAt env path) p = taskResult env p := by
  simp [taskResult, analyze_screenshot, encode_image, failAt, h]

/-- The task whose read fails is recorded as the orchestrator's one-key
error dictionary. -/
theorem taskResult_failAt_self (env : Env) (p : ImagePath) :
    taskResult (failAt env (fullPath p)) p =
      .jobj (.cons "error" (.jstr "injected") .nil) := by
  simp [taskResult, analyze_screenshot, encode_image, failAt]

/-- C5: partial-failure isolation.  Inject a failure into the task for
file `g`: the batch still records an outcome for every file — `g`'s entry
is the error record, while any other file `f` keeps exactly the outcome
it has in the unperturbed run — so one task's failure neither drops nor
alters sibling outcomes, and the batch completes. -/
theorem batch_partial_failure_isolation (env : Env) (order : List ImagePath)
    (f g : ImagePath)
    (hnd : (order.map basename).Nodup) (hf : f ∈ order) (hg : g ∈ order)
    (hne : fullPath f ≠ fullPath g) :
    (runBatch (failAt env (fullPath g)) order).lookup (basename g) =
        some (.jobj (.cons "error" (.jstr "injected") .nil)) ∧
    (runBatch (failAt env (fullPath g)) order).lookup (basename f) =
        some (taskResult env f) ∧
    (runBatch env order).lookup (basename f) = some (taskResult env f) := by
  refine ⟨?_, ?_, ?_⟩
  · rw [lookup_runBatch _ order g hnd hg, taskResult_failAt_self]
  · rw [lookup_runBatch _ order f hnd hf, taskResult_failAt_ne _ _ _ hne]
  · exact lookup_runBatch env order f hnd hf

/-- C5 witness: two files, failure injected into the second. -/
theorem batch_partial_failure_isolation_witness :
    ((([⟨"shots", "a.png"⟩, ⟨"shots", "b.png"⟩] : List ImagePath).map basename).Nodup ∧
     (⟨"shots", "a.png"⟩ : ImagePath) ∈
        ([⟨"shots", "a.png"⟩, ⟨"shots", "b.png"⟩] : List ImagePath) ∧
     (⟨"shots", "b.png"⟩ : ImagePath) ∈
        ([⟨"shots", "a.png"⟩, ⟨"shots", "b.png"⟩] : List ImagePath) ∧
     fullPath ⟨"shots", "a.png"⟩ ≠ fullPath ⟨"shots", "b.png"⟩) ∧
    ((runBatch (failAt sampleEnv (fullPath ⟨"shots", "b.png"⟩))
        [⟨"shots", "a.png"⟩, ⟨"shots", "b.png"⟩]).lookup
          (basename ⟨"shots", "b.png"⟩) =
        some (.jobj (.cons "error" (.jstr "injected") .nil)) ∧
     (runBatch (failAt sampleEnv (fullPath ⟨"shots", "b.png"⟩))
        [⟨"shots", "a.png"⟩, ⟨"shots", "b.png"⟩]).lookup
          (basename ⟨"shots", "a.png"⟩) =
        some (taskResult sampleEnv ⟨"shots", "a.png"⟩) ∧
     (runBatch sampleEnv [⟨"shots", "a.png"⟩, ⟨"shots", "b.png"⟩]).lookup
          (basename ⟨"shots", "a.png"⟩) =
        some (taskResult sampleEnv ⟨"shots", "a.png"⟩)) :=
  ⟨⟨by decide, by decide, by decide, by decide⟩,
   batch_partial_failure_isolation sampleEnv
     [⟨"shots", "a.png"⟩, ⟨"shots", "b.png"⟩]
     ⟨"shots", "a.png"⟩ ⟨"shots", "b.png"⟩
     (by decide) (by decide) (by decide) (by decide)⟩

/-- No entry name can match the glob patterns of two different supported
extensions: two suffixes of one string are suffix-ordered, and no
supported extension is a suffix of another. -/
theorem globMatches_pairwise_disjoint (listing : List String) :
    ∀ e1 ∈ SUPPORTED_EXTENSIONS, ∀ e2 ∈ SUPPORTED_EXTENSIONS, e1 ≠ e2 →
      (globMatches listing e1).Disjoint (globMatches listing e2) := by
  intro e1 h1 e2 h2 hne x hx hy
  have ha := (List.mem_filter.mp hx).2
  have hb := (List.mem_filter.mp hy).2
  unfold endsWith at ha hb
  rw [List.isSuffixOf_iff_suffix] at ha hb
  have htab : ∀ a ∈ SUPPORTED_EXTENSIONS, ∀ b ∈ SUPPORTED_EXTENSIONS,
      a ≠ b → ¬(a.data <:+ b.data) := by decide
  rcases List.suffix_or_suffix_of_suffix ha hb with h | h
  · exact htab e1 h1 e2 h2 hne h
  · exact htab e2 h2 e1 h1 (Ne.symm hne) h

/-- Over a duplicate-free directory listing, the discovered files carry
duplicate-free basenames: each glob's matches are distinct entries, and
no entry matches two extensions. -/
theorem discoverFiles_basenames_nodup (dp : String) (listing : List String)
    (hl : listing.Nodup) :
    ((discoverFiles dp (some listing)).map basename).Nodup := by
  have hmap : ((discoverFiles dp (some listing)).map basename) =
      SUPPORTED_EXTENSIONS.foldl (fun acc ext => acc ++ globMatches listing ext) [] := by
    simp only [discoverFiles, List.map_map]
    rw [show (basename ∘ fun n => (⟨dp, n⟩ : ImagePath)) = id from rfl, List.map_id]
  rw [hmap]
  have hd := globMatches_pairwise_disjoint listing
  simp only [SUPPORTED_EXTENSIONS, List.foldl_cons, List.foldl_nil, List.nil_append]
  rw [List.nodup_append, List.nodup_append, List.nodup_append,
      List.disjoint_append_left, List.disjoint_append_left, List.disjoint_append_left]
  have dAB := hd ".png" (by decide) ".jpg" (by decide) (by decide)
  have dAC := hd ".png" (by decide) ".jpeg" (by decide) (by decide)
  have dAD := hd ".png" (by decide) ".webp" (by decide) (by decide)
  have dBC := hd ".jpg" (by decide) ".jpeg" (by decide) (by decide)
  have dBD := hd ".jpg" (by decide) ".webp" (by decide) (by decide)
  have dCD := hd ".jpeg" (by decide) ".webp" (by decide) (by decide)
  exact ⟨⟨⟨hl.filter _, hl.filter _, dAB⟩, hl.filter _, dAC, dBC⟩,
    hl.filter _, ⟨dAD, dBD⟩, dCD⟩

/-- When discovery found files and the call returned, the returned
mapping is the collection loop's mapping. -/
theorem analyze_directory_results_eq (env : Env) (dp : String)
    (dir : Option (List String)) (fmt : OutFormat) (outFile : Option String)
    (order : List ImagePath)
    (hne : (discoverFiles dp dir).isEmpty = false)
    (hs : (analyze_directory env dp dir fmt outFile order).isSome = true) :
    resultsOf (analyze_directory env dp dir fmt outFile order) =
      runBatch env order := by
  simp only [analyze_directory, hne, Bool.false_eq_true, if_false] at hs ⊢
  cases fmt with
  | json => cases outFile <;> rfl
  | table =>
      rcases hrt : renderTable (runBatch env order) with _ | tbl
      · simp only [hrt] at hs
        simp at hs
      · simp only [hrt]
        cases outFile <;> rfl

/-- C1: over a duplicate-free directory listing, a completed
`analyze_directory` run returns a mapping whose key list is a permutation
of the discovered files' basenames, is duplicate-free, and has exactly
one entry per discovered file — no basename is dropped, duplicated, or
left without an outcome. -/
theorem analyze_directory_resultset_complete (env : Env) (dp : String)
    (listing : List String) (fmt : OutFormat) (outFile : Option String)
    (order : List ImagePath)
    (hl : listing.Nodup)
    (hperm : order.Perm (discoverFiles dp (some listing)))
    (hs : (analyze_directory env dp (some listing) fmt outFile order).isSome = true) :
    ((resultsOf (analyze_directory env dp (some listing) fmt outFile order)).map
        Prod.fst).Perm ((discoverFiles dp (some listing)).map basename) ∧
    ((resultsOf (analyze_directory env dp (some listing) fmt outFile order)).map
        Prod.fst).Nodup ∧
    (resultsOf (analyze_directory env dp (some listing) fmt outFile order)).length =
      (discoverFiles dp (some listing)).length := by
  by_cases hemp : (discoverFiles dp (some listing)).isEmpty = true
  · have hnil : discoverFiles dp (some listing) = [] := List.isEmpty_iff.mp hemp
    have hres : resultsOf (analyze_directory env dp (some listing) fmt outFile order) = [] := by
      unfold analyze_directory
      rw [hnil]
      rfl
    rw [hres, hnil]
    simp
  · have hres := analyze_directory_results_eq env dp (some listing) fmt outFile order
      (by simpa using hemp) hs
    rw [hres]
    have h1 : (runBatch env order).map Prod.fst = order.map basename := by
      rw [runBatch, List.map_map]
      rfl
    have hperm2 : (order.map basename).Perm
        ((discoverFiles dp (some listing)).map basename) := hperm.map basename
    refine ⟨h1 ▸ hperm2, ?_, ?_⟩
    · rw [h1]
      exact hperm2.nodup_iff.mpr (discoverFiles_basenames_nodup dp listing hl)
    · calc (runBatch env order).length = order.length := List.length_map _ _
        _ = (discoverFiles dp (some listing)).length := hperm.length_eq

/-- C1 witness: a listing with two matching images and one non-image,
analyzed in discovery order. -/
theorem analyze_directory_resultset_complete_witness :
    ((["a.png", "b.jpg", "c.txt"] : List String).Nodup ∧
     (discoverFiles "shots" (some ["a.png", "b.jpg", "c.txt"])).Perm
        (discoverFiles "shots" (some ["a.png", "b.jpg", "c.txt"])) ∧
     (analyze_directory sampleEnv "shots" (some ["a.png", "b.jpg", "c.txt"])
        .json none
        (discoverFiles "shots" (some ["a.png", "b.jpg", "c.txt"]))).isSome = true) ∧
    (((resultsOf (analyze_directory sampleEnv "shots"
          (some ["a.png", "b.jpg", "c.txt"]) .json none
          (discoverFiles "shots" (some ["a.png", "b.jpg", "c.txt"])))).map
        Prod.fst).Perm
          ((discoverFiles "shots" (some ["a.png", "b.jpg", "c.txt"])).map basename) ∧
     ((resultsOf (analyze_directory sampleEnv "shots"
          (some ["a.png", "b.jpg", "c.txt"]) .json none
          (discoverFiles "shots" (some ["a.png", "b.jpg", "c.txt"])))).map
        Prod.fst).Nodup ∧
     (resultsOf (analyze_directory sampleEnv "shots"
          (some ["a.png", "b.jpg", "c.txt"]) .json none
          (discoverFiles "shots" (some ["a.png", "b.jpg", "c.txt"])))).length =
       (discoverFiles "shots" (some ["a.png", "b.jpg", "c.txt"])).length) :=
  ⟨⟨by decide, List.Perm.refl _, by rfl⟩,
   analyze_directory_resultset_complete sampleEnv "shots" ["a.png", "b.jpg", "c.txt"]
     .json none (discoverFiles "shots" (some ["a.png", "b.jpg", "c.txt"]))
     (by decide) (List.Perm.refl _) (by rfl)⟩

/-- Decoding inverts the alphabet on every six-bit value. -/
theorem charSextet_sextetChar : ∀ n, n < 64 → charSextet (sextetChar n) = some n := by
  decide

/-- No six-bit value encodes to the padding character. -/
theorem sextetChar_ne_pad : ∀ n, n < 64 → sextetChar n ≠ '=' := by
  decide

/-- Decoding inverts encoding on every byte sequence. -/
theorem decodeChunks_encodeChunks (bs : List Nat) (hb : ∀ b ∈ bs, b < 256) :
    decodeChunks (encodeChunks bs) = some bs := by
  have H : ∀ n (bs : List Nat), bs.length ≤ n → (∀ b ∈ bs, b < 256) →
      decodeChunks (encodeChunks bs) = some bs := by
    intro n
    induction n with
    | zero =>
        intro bs hlen _
        rw [List.length_eq_zero.mp (Nat.le_zero.mp hlen)]
        rfl
    | succ n ih =>
        intro bs hlen hb
        rcases bs with _ | ⟨b0, _ | ⟨b1, _ | ⟨b2, rest⟩⟩⟩
        · rfl
        · have hb0 : b0 < 256 := hb b0 (by simp)
          have h0 : charSextet (sextetChar (b0 / 4)) = some (b0 / 4) :=
            charSextet_sextetChar _ (by omega)
          have h1 : charSextet (sextetChar (b0 % 4 * 16)) = some (b0 % 4 * 16) :=
            charSextet_sextetChar _ (by omega)
          simp [encodeChunks, decodeChunks, h0, h1]
          omega
        · have hb0 : b0 < 256 := hb b0 (by simp)
          have hb1 : b1 < 256 := hb b1 (by simp)
          have hne : sextetChar (b1 % 16 * 4) ≠ '=' :=
            sextetChar_ne_pad _ (by omega)
          have h0 : charSextet (sextetChar (b0 / 4)) = some (b0 / 4) :=
            charSextet_sextetChar _ (by omega)
          have h1 : charSextet (sextetChar (b0 % 4 * 16 + b1 / 16)) =
              some (b0 % 4 * 16 + b1 / 16) :=
            charSextet_sextetChar _ (by omega)
          have h2 : charSextet (sextetChar (b1 % 16 * 4)) = some (b1 % 16 * 4) :=
            charSextet_sextetChar _ (by omega)
          simp [encodeChunks, decodeChunks, hne, h0, h1, h2]
          omega
        · have hb0 : b0 < 256 := hb b0 (by simp)
          have hb1 : b1 < 256 := hb b1 (by simp)
          have hb2 : b2 < 256 := hb b2 (by simp)
          have hbr : ∀ b ∈ rest, b < 256 := fun b hbm => hb b (by simp [hbm])
          have hne2 : sextetChar (b1 % 16 * 4 + b2 / 64) ≠ '=' :=
            sextetChar_ne_pad _ (by omega)
          have hne3 : sextetChar (b2 % 64) ≠ '=' :=
            sextetChar_ne_pad _ (by omega)
          have h0 : charSextet (sextetChar (b0 / 4)) = some (b0 / 4) :=
            charSextet_sextetChar _ (by omega)
          have h1 : charSextet (sextetChar (b0 % 4 * 16 + b1 / 16)) =
              some (b0 % 4 * 16 + b1 / 16) :=
            charSextet_sextetChar _ (by omega)
          have h2 : charSextet (sextetChar (b1 % 16 * 4 + b2 / 64)) =
              some (b1 % 16 * 4 + b2 / 64) :=
            charSextet_sextetChar _ (by omega)
          have h3 : charSextet (sextetChar (b2 % 64)) = some (b2 % 64) :=
            charSextet_sextetChar _ (by omega)
          have hrec : decodeChunks (encodeChunks rest) = some rest := by
            apply ih
            · simp at hlen
              omega
            · exact hbr
          simp [encodeChunks, decodeChunks, hne2, hne3, h0, h1, h2, h3, hrec]
          omega
  exact H bs.length bs (le_refl _) hb

/-- C9: `encode_image` is the standard base64 transport encoding of the
file's bytes (decoded as UTF-8 text, which is the identity on the ASCII
output); base64-decoding its return value yields exactly the file's
original bytes. -/
theorem encode_image_roundtrip (env : Env) (path : String) (bs : List Nat)
    (hread : env.fileBytes path = .ok bs) (hb : ∀ b ∈ bs, b < 256) :
    encode_image env path = .ok (b64encodeStr bs) ∧
    b64decodeStr (b64encodeStr bs) = some bs := by
  constructor
  · simp [encode_image, hread]
  · exact decodeChunks_encodeChunks bs hb

/-- C9 witness: the classic three-byte example. -/
theorem encode_image_roundtrip_witness :
    (sampleEnv.fileBytes "shots/a.png" = .ok [77, 97, 110] ∧
     (∀ b ∈ ([77, 97, 110] : List Nat), b < 256)) ∧
    (encode_image sampleEnv "shots/a.png" = .ok (b64encodeStr [77, 97, 110]) ∧
     b64decodeStr (b64encodeStr [77, 97, 110]) = some [77, 97, 110]) :=
  ⟨⟨rfl, by decide⟩,
   encode_image_roundtrip sampleEnv "shots/a.png" [77, 97, 110] rfl (by decide)⟩

/-- Rounding the zero confidence. -/
theorem roundHalfEven_zero : roundHalfEven 0 = 0 := by
  unfold roundHalfEven
  norm_num

/-- The default confidence formats as 0.00. -/
theorem format2f_zero : format2f 0 = "0.00" := by
  unfold format2f
  rw [show (0 : ℚ) * 100 = 0 from by norm_num, roundHalfEven_zero]
  decide

/-- A feature whose sub-object is absent renders as not detected with
confidence 0.00: both `.get` calls fall back to the empty dict, whose
lookups fall back to `False` and `0`. -/
theorem featureCell_missing (fs : JObj) (key : String)
    (h : fs.lookup key = none) :
    featureCell (.jobj fs) key = some "✗ (0.00)" := by
  unfold featureCell
  have hd : dictGet (.jobj fs) key (.jobj .nil) = some (.jobj .nil) := by
    simp [dictGet, h]
  rw [hd]
  simp only [Option.bind_eq_bind, Option.some_bind, dictGet, JObj.lookup,
    Option.getD_none, fmtNum2, format2f_zero, truthy]
  decide

/-- An absent technologies list renders as the empty cell: `.get` falls
back to the empty list, which joins to the empty string. -/
theorem techCell_missing (fs : JObj)
    (h : fs.lookup "technologies" = none) :
    techCell (.jobj fs) = some "" := by
  unfold techCell
  have hd : dictGet (.jobj fs) "technologies" (.jarr .nil) = some (.jarr .nil) := by
    simp [dictGet, h]
  rw [hd]
  decide

/-- A render-safe feature entry always yields a cell. -/
theorem featureCell_isSome (fs : JObj) (key : String)
    (h : featureSafe fs key = true) :
    (featureCell (.jobj fs) key).isSome = true := by
  unfold featureSafe at h
  cases hlk : fs.lookup key with
  | none => rw [featureCell_missing fs key hlk]; rfl
  | some v =>
      rw [hlk] at h
      cases v with
      | jobj sub =>
          cases hconf : sub.lookup "confidence" with
          | none => simp [featureCell, dictGet, hlk, hconf, fmtNum2]
          | some c =>
              simp only [hconf] at h
              cases c <;> simp_all [featureCell, dictGet, fmtNum2]
      | jnull => simp at h
      | jbool b => simp at h
      | jnum q => simp at h
      | jstr s => simp at h
      | jarr a => simp at h

/-- A render-safe technologies entry always yields a cell. -/
theorem techCell_isSome (fs : JObj) (h : techSafe fs = true) :
    (techCell (.jobj fs)).isSome = true := by
  unfold techSafe at h
  cases hlk : fs.lookup "technologies" with
  | none => rw [techCell_missing fs hlk]; rfl
  | some v =>
      rw [hlk] at h
      cases v with
      | jarr a =>
          rcases Option.isSome_iff_exists.mp h with ⟨strs, hstrs⟩
          simp [techCell, dictGet, hlk, hstrs]
      | jstr s => simp [techCell, dictGet, hlk]
      | jobj o => simp [techCell, dictGet, hlk]
      | jnull => simp at h
      | jbool b => simp at h
      | jnum q => simp at h

/-- A render-safe payload always yields a full table row. -/
theorem renderRow_isSome (name : String) (fs : JObj)
    (h : renderSafe fs = true) :
    (renderRow name (.jobj fs)).isSome = true := by
  unfold renderSafe at h
  rw [Bool.and_eq_true, List.all_eq_true] at h
  obtain ⟨hfeat, htech⟩ := h
  cases herr : fs.hasKey "error" with
  | true => simp [renderRow, pyContains, herr]
  | false =>
      rcases Option.isSome_iff_exists.mp (techCell_isSome fs htech) with ⟨tc, htc⟩
      rcases Option.isSome_iff_exists.mp
        (featureCell_isSome fs "old_looking" (hfeat _ (by decide))) with ⟨c1, hc1⟩
      rcases Option.isSome_iff_exists.mp
        (featureCell_isSome fs "login_page" (hfeat _ (by decide))) with ⟨c2, hc2⟩
      rcases Option.isSome_iff_exists.mp
        (featureCell_isSome fs "webapp" (hfeat _ (by decide))) with ⟨c3, hc3⟩
      rcases Option.isSome_iff_exists.mp
        (featureCell_isSome fs "custom_404" (hfeat _ (by decide))) with ⟨c4, hc4⟩
      rcases Option.isSome_iff_exists.mp
        (featureCell_isSome fs "parked_domain" (hfeat _ (by decide))) with ⟨c5, hc5⟩
      simp [renderRow, pyContains, herr, htc, hc1, hc2, hc3, hc4, hc5]

/-- C6 counterexample: the structured renderer does *not* substitute
defaults.  If it substituted false/0.0 for a missing `login_page`
sub-object, serializing a payload without that key would coincide with
serializing the payload carrying the default-filled sub-object; the two
outputs differ, because the payload is emitted verbatim. -/
theorem structured_renderer_no_default_substitution :
    output_json [("a.png", .jobj .nil)] ≠
      output_json [("a.png", .jobj (.cons "login_page"
        (.jobj (.cons "detected" (.jbool false)
          (.cons "confidence" (.jnum 0) .nil))) .nil))] := by
  decide

/-- C6 amended: for a payload missing expected sub-fields, the *tabular*
renderer substitutes the documented defaults — an absent feature
sub-object renders as not-detected with confidence 0.00, an absent
technologies list as the empty cell — and the row completes; the
structured renderer completes by emitting the payload as-is, without
inserting any defaults. -/
theorem render_missing_subfields_defaults (name : String) (fs : JObj)
    (hsafe : renderSafe fs = true) :
    (renderRow name (.jobj fs)).isSome = true ∧
    (∀ k ∈ featureKeys, fs.lookup k = none →
      featureCell (.jobj fs) k = some "✗ (0.00)") ∧
    (fs.lookup "technologies" = none → techCell (.jobj fs) = some "") ∧
    output_json [(name, .jobj fs)] =
      "\x7b\n" ++ (indentStr 1 ++ dumpStr name ++ ": " ++ dumpVal 1 (.jobj fs)) ++
        "\n" ++ indentStr 0 ++ "\x7d" :=
  ⟨renderRow_isSome name fs hsafe,
   fun k _ hk => featureCell_missing fs k hk,
   fun ht => techCell_missing fs ht,
   rfl⟩

/-- C6 amended, witness: a payload carrying only a well-formed `webapp`
feature — every other sub-field is missing. -/
theorem render_missing_subfields_defaults_witness :
    renderSafe (.cons "webapp" (.jobj (.cons "detected" (.jbool true)
        (.cons "confidence" (.jnum 1) .nil))) .nil) = true ∧
    ((renderRow "a.png" (.jobj (.cons "webapp" (.jobj (.cons "detected" (.jbool true)
        (.cons "confidence" (.jnum 1) .nil))) .nil))).isSome = true ∧
     (∀ k ∈ featureKeys,
        JObj.lookup (.cons "webapp" (.jobj (.cons "detected" (.jbool true)
          (.cons "confidence" (.jnum 1) .nil))) .nil) k = none →
        featureCell (.jobj (.cons "webapp" (.jobj (.cons "detected" (.jbool true)
          (.cons "confidence" (.jnum 1) .nil))) .nil)) k = some "✗ (0.00)") ∧
     (JObj.lookup (.cons "webapp" (.jobj (.cons "detected" (.jbool true)
          (.cons "confidence" (.jnum 1) .nil))) .nil) "technologies" = none →
        techCell (.jobj (.cons "webapp" (.jobj (.cons "detected" (.jbool true)
          (.cons "confidence" (.jnum 1) .nil))) .nil)) = some "") ∧
     output_json [("a.png", .jobj (.cons "webapp" (.jobj (.cons "detected" (.jbool true)
          (.cons "confidence" (.jnum 1) .nil))) .nil))] =
       "\x7b\n" ++ (indentStr 1 ++ dumpStr "a.png" ++ ": " ++
           dumpVal 1 (.jobj (.cons "webapp" (.jobj (.cons "detected" (.jbool true)
             (.cons "confidence" (.jnum 1) .nil))) .nil))) ++
         "\n" ++ indentStr 0 ++ "\x7d") :=
  ⟨by decide,
   render_missing_subfields_defaults "a.png"
     (.cons "webapp" (.jobj (.cons "detected" (.jbool true)
       (.cons "confidence" (.jnum 1) .nil))) .nil) (by decide)⟩

/-- C7: a success payload lacking the `login_page` sub-object renders
that feature in the table as not-detected with confidence formatted as
0.00, and the structured renderer still emits the payload as-is. -/
theorem missing_login_page_renders_default (name : String) (fs : JObj)
    (h : fs.lookup "login_page" = none) :
    featureCell (.jobj fs) "login_page" = some "✗ (0.00)" ∧
    output_json [(name, .jobj fs)] =
      "\x7b\n" ++ (indentStr 1 ++ dumpStr name ++ ": " ++ dumpVal 1 (.jobj fs)) ++
        "\n" ++ indentStr 0 ++ "\x7d" :=
  ⟨featureCell_missing fs "login_page" h, rfl⟩

/-- C7 witness: a payload whose only key is `webapp`. -/
theorem missing_login_page_renders_default_witness :
    JObj.lookup (.cons "webapp" (.jobj .nil) .nil) "login_page" = none ∧
    (featureCell (.jobj (.cons "webapp" (.jobj .nil) .nil)) "login_page" =
        some "✗ (0.00)" ∧
     output_json [("b.png", .jobj (.cons "webapp" (.jobj .nil) .nil))] =
       "\x7b\n" ++ (indentStr 1 ++ dumpStr "b.png" ++ ": " ++
           dumpVal 1 (.jobj (.cons "webapp" (.jobj .nil) .nil))) ++
         "\n" ++ indentStr 0 ++ "\x7d") :=
  ⟨rfl, missing_login_page_renders_default "b.png"
    (.cons "webapp" (.jobj .nil) .nil) rfl⟩
